import Mathlib

/-!
Verification of the products REST API.

The repository contains three overlapping server variants:
* a mongoose-backed router (productRoutes.js, first section) with inline
  field checks on POST/PUT;
* a rich in-memory server (productRoutes.js, second section) with
  validateProduct and authenticateApiKey middleware, list
  filtering/pagination, a stats endpoint and a global error normalizer;
* a lean in-memory server (server.js) with the same middleware functions
  but without the list query, stats and error-normalizer features.

This file shallowly embeds the request handlers of all three variants:
JS runtime values become an inductive type, request bodies become records
of such values, the in-memory products array becomes a Lean list, and
each handler becomes a pure function from its inputs (store contents,
headers, body, generated id) to a status code and the new store contents.
-/

namespace ProductsApi

/-- A JavaScript runtime value as it can appear in a parsed JSON request
body field: undefined (absent), a string, a number, or a boolean. -/
inductive JsVal where
  | undef
  | str (s : String)
  | num (n : Int)
  | boolean (b : Bool)
deriving DecidableEq

/-- JS truthiness of a body field value: undefined, the empty string,
the number 0 and false are falsy. -/
def JsVal.truthy : JsVal → Bool
  | .undef => false
  | .str s => decide (s ≠ "")
  | .num n => decide (n ≠ 0)
  | .boolean b => b

/-- typeof v === "string". -/
def JsVal.isStr : JsVal → Bool
  | .str _ => true
  | _ => false

/-- typeof v === "number". -/
def JsVal.isNum : JsVal → Bool
  | .num _ => true
  | _ => false

/-- typeof v === "boolean". -/
def JsVal.isBool : JsVal → Bool
  | .boolean _ => true
  | _ => false

/-- The string content of a value (only used on values validated to be
strings). -/
def JsVal.strVal : JsVal → String
  | .str s => s
  | _ => ""

/-- The numeric content of a value (only used on values validated to be
numbers). -/
def JsVal.numVal : JsVal → Int
  | .num n => n
  | _ => 0

/-- The boolean content of a value (only used on values validated to be
booleans). -/
def JsVal.boolVal : JsVal → Bool
  | .boolean b => b
  | _ => false

/-- A parsed JSON request body for the product endpoints.  The handlers
destructure name, description, price, category and inStock; idField
models an id key the client may also send, which no handler reads. -/
structure Body where
  name : JsVal
  description : JsVal
  price : JsVal
  category : JsVal
  inStock : JsVal
  idField : Option JsVal
deriving DecidableEq

/-- Whitespace as trimmed by the JS string methods used here (the source
only ever handles ASCII data). -/
def isJsSpace (c : Char) : Bool :=
  c == ' ' || c == '\t' || c == '\n' || c == '\r'

/-- JS String.prototype.trim: drop leading and trailing whitespace. -/
def jsTrim (s : String) : String :=
  ⟨((s.toList.dropWhile isJsSpace).reverse.dropWhile isJsSpace).reverse⟩

/-- JS String.prototype.toLowerCase on the ASCII data handled here. -/
def jsLower (s : String) : String :=
  ⟨s.toList.map Char.toLower⟩

/-- Whether the first list starts with the second. -/
def startsWithList : List Char → List Char → Bool
  | _, [] => true
  | [], _ :: _ => false
  | a :: as, b :: bs => a == b && startsWithList as bs

/-- Whether sub occurs contiguously inside hay. -/
def containsList (hay sub : List Char) : Bool :=
  match hay with
  | [] => sub.isEmpty
  | _ :: rest => startsWithList hay sub || containsList rest sub

/-- JS String.prototype.includes: substring containment. -/
def jsIncludes (s sub : String) : Bool :=
  containsList s.toList sub.toList

/-- A stored product record (the shape of the in-memory array entries
and of the mongoose documents). -/
structure Product where
  id : String
  name : String
  description : String
  price : Int
  category : String
  inStock : Bool
deriving DecidableEq

/-- First seed record. -/
def laptopP : Product :=
  { id := "1", name := "Laptop",
    description := "High-performance laptop with 16GB RAM",
    price := 1200, category := "electronics", inStock := true }

/-- Second seed record. -/
def smartphoneP : Product :=
  { id := "2", name := "Smartphone",
    description := "Latest model with 128GB storage",
    price := 800, category := "electronics", inStock := true }

/-- Third seed record. -/
def coffeeMakerP : Product :=
  { id := "3", name := "Coffee Maker",
    description := "Programmable coffee maker with timer",
    price := 50, category := "kitchen", inStock := false }

/-- The three-item seed array from the in-memory servers. -/
def seedProducts : List Product := [laptopP, smartphoneP, coffeeMakerP]

/-- The validateProduct middleware shared by the rich server
(productRoutes.js) and the lean server (server.js); the checks and their
order are identical in both.  Returns the validation error message on
failure. -/
def validateProduct (b : Body) : Except String Unit :=
  if !b.name.truthy || !b.description.truthy || b.price == JsVal.undef
      || !b.category.truthy then
    .error "Missing required fields: name, description, price, category are required"
  else if !b.name.isStr || (jsTrim b.name.strVal).length == 0 then
    .error "name must be a non-empty string"
  else if !b.description.isStr then
    .error "description must be a string"
  else if !b.price.isNum || b.price.numVal < 0 then
    .error "price must be a positive number"
  else if !b.category.isStr || (jsTrim b.category.strVal).length == 0 then
    .error "category must be a non-empty string"
  else if b.inStock != JsVal.undef && !b.inStock.isBool then
    .error "inStock must be a boolean"
  else
    .ok ()

/-- The inline body check of the mongoose router POST and PUT handlers:
if (!name || !description || !price || !category || inStock === undefined)
then 400 "All fields are required". -/
def mongooseValidate (b : Body) : Except String Unit :=
  if !b.name.truthy || !b.description.truthy || !b.price.truthy
      || !b.category.truthy || b.inStock == JsVal.undef then
    .error "All fields are required"
  else
    .ok ()

/-- The authenticateApiKey middleware: the x-api-key header (falsy when
absent or empty) must equal the configured secret. -/
def authenticateApiKey (expected : String) (apiKey : Option String) :
    Except String Unit :=
  if apiKey.getD "" == "" then
    .error "API key required in x-api-key header"
  else if apiKey.getD "" != expected then
    .error "Invalid API key"
  else
    .ok ()

/-- The record built by the rich and lean POST/PUT handlers: id is the
system-supplied value, name/description/category are trimmed, and
inStock defaults to true when the field is undefined. -/
def mkRichProduct (newId : String) (b : Body) : Product :=
  { id := newId
    name := jsTrim b.name.strVal
    description := jsTrim b.description.strVal
    price := b.price.numVal
    category := jsTrim b.category.strVal
    inStock := match b.inStock with
               | .undef => true
               | v => v.boolVal }

/-- The document built by the mongoose POST handler: fields are stored
exactly as sent, with no trimming and no inStock default. -/
def mkMongooseProduct (newId : String) (b : Body) : Product :=
  { id := newId
    name := b.name.strVal
    description := b.description.strVal
    price := b.price.numVal
    category := b.category.strVal
    inStock := b.inStock.boolVal }

/-- POST /api/products in the rich and lean in-memory servers:
authenticate, validate, then push the freshly built record (with the
generated id newId) onto the array; no duplicate-id check occurs.
Returns the response status, the new store and the created record. -/
def richPost (expected : String) (apiKey : Option String)
    (store : List Product) (b : Body) (newId : String) :
    Nat × List Product × Option Product :=
  match authenticateApiKey expected apiKey with
  | .error _ => (401, store, none)
  | .ok _ =>
    match validateProduct b with
    | .error _ => (400, store, none)
    | .ok _ => (201, store ++ [mkRichProduct newId b], some (mkRichProduct newId b))

/-- POST /products in the mongoose router: inline field check, then save
the new document (the collection is modelled as a list in insertion
order); there is no auth middleware on this route. -/
def mongoosePost (store : List Product) (b : Body) (newId : String) :
    Nat × List Product × Option Product :=
  match mongooseValidate b with
  | .error _ => (400, store, none)
  | .ok _ => (201, store ++ [mkMongooseProduct newId b], some (mkMongooseProduct newId b))

/-- PUT /api/products/:id in the rich and lean in-memory servers:
authenticate, validate, locate the record by the path id (findIndex),
404 when absent, otherwise overwrite the slot with a record whose id is
the path parameter. -/
def richPut (expected : String) (apiKey : Option String)
    (store : List Product) (pathId : String) (b : Body) :
    Nat × List Product × Option Product :=
  match authenticateApiKey expected apiKey with
  | .error _ => (401, store, none)
  | .ok _ =>
    match validateProduct b with
    | .error _ => (400, store, none)
    | .ok _ =>
      match store.findIdx? (fun p => p.id == pathId) with
      | none => (404, store, none)
      | some i => (200, store.set i (mkRichProduct pathId b), some (mkRichProduct pathId b))

/-- JS parseInt(s, 10): skip leading whitespace, read an optional sign
and then leading decimal digits; none models NaN (no digits found);
trailing non-digits are ignored. -/
def jsParseInt (s : String) : Option Int :=
  let cs := s.toList.dropWhile isJsSpace
  let signAndRest : Int × List Char :=
    match cs with
    | '-' :: rest => (-1, rest)
    | '+' :: rest => (1, rest)
    | _ => (1, cs)
  let ds := signAndRest.2.takeWhile Char.isDigit
  if ds.isEmpty then none
  else some (signAndRest.1 * (ds.foldl (fun a c => a * 10 + ((c.toNat : Int) - 48)) (0 : Int)))

/-- JS (v || d) applied to a parseInt result: NaN and 0 are falsy and
fall back to the default. -/
def jsOrDefault (v : Option Int) (d : Int) : Int :=
  match v with
  | none => d
  | some n => if n == 0 then d else n

/-- The page computation of the rich list handler:
Math.max(parseInt(page, 10) || 1, 1), where the destructuring default
supplies the string "1" when the parameter is absent. -/
def parsePage (page : Option String) : Int :=
  max (jsOrDefault (jsParseInt (page.getD "1")) 1) 1

/-- The limit computation of the rich list handler:
Math.min(Math.max(parseInt(limit, 10) || 10, 1), 100), where the
destructuring default supplies the string "10" when absent. -/
def parseLimit (limit : Option String) : Int :=
  min (max (jsOrDefault (jsParseInt (limit.getD "10")) 10) 1) 100

/-- JS truthiness of an optional query-string parameter: absent and
empty are falsy. -/
def strParamTruthy : Option String → Bool
  | none => false
  | some s => decide (s ≠ "")

/-- The category step of the rich list handler: when the category
parameter is truthy, keep exactly the records whose category equals it
case-insensitively. -/
def applyCategoryFilter (ps : List Product) (category : Option String) :
    List Product :=
  if strParamTruthy category then
    ps.filter (fun p => jsLower p.category == jsLower (category.getD ""))
  else ps

/-- The search step of the rich list handler: when the q parameter is
truthy, keep exactly the records whose name contains it as a
case-insensitive substring. -/
def applyQFilter (ps : List Product) (q : Option String) : List Product :=
  if strParamTruthy q then
    ps.filter (fun p => jsIncludes (jsLower p.name) (jsLower (q.getD "")))
  else ps

/-- The query parameters accepted by GET /api/products. -/
structure ListQuery where
  category : Option String
  q : Option String
  page : Option String
  limit : Option String
deriving DecidableEq

/-- The response envelope of GET /api/products. -/
structure ListResp where
  page : Int
  limit : Int
  total : Nat
  data : List Product
deriving DecidableEq

/-- GET /api/products in the rich server: filter by category, then by
name search, compute the total over the filtered list, then slice
[(page-1)*limit, (page-1)*limit + limit). -/
def listProducts (store : List Product) (qp : ListQuery) : ListResp :=
  let results := applyQFilter (applyCategoryFilter store qp.category) qp.q
  let pageNum := parsePage qp.page
  let limitNum := parseLimit qp.limit
  let total := results.length
  let start := ((pageNum - 1) * limitNum).toNat
  { page := pageNum, limit := limitNum, total := total
    data := (results.drop start).take limitNum.toNat }

/-- Increment the count stored under a key in an association list,
appending the key with count 1 when absent; this is the step
acc[p.category] = (acc[p.category] || 0) + 1 of the stats reduce, with
JS object string keys kept in insertion order. -/
def bumpCount : List (String × Nat) → String → List (String × Nat)
  | [], c => [(c, 1)]
  | (k, v) :: rest, c =>
    if k = c then (k, v + 1) :: rest else (k, v) :: bumpCount rest c

/-- Reading a count back from the association list; missing keys read
as 0, matching (acc[c] || 0). -/
def lookupCount : List (String × Nat) → String → Nat
  | [], _ => 0
  | (k, v) :: rest, c => if k = c then v else lookupCount rest c

/-- The response of GET /api/products/stats. -/
structure Stats where
  total : Nat
  inStock : Nat
  byCategory : List (String × Nat)
deriving DecidableEq

/-- GET /api/products/stats in the rich server: totals over the full
unfiltered store. -/
def statsOf (store : List Product) : Stats :=
  { total := store.length
    inStock := (store.filter (fun p => p.inStock)).length
    byCategory := store.foldl (fun acc p => bumpCount acc p.category) [] }

/-- The stats handler never fails: it always answers 200 with the stats
object. -/
def richStats (store : List Product) : Nat × Stats :=
  (200, statsOf store)

/-- One segment of an Express route pattern: a literal or a named
parameter such as :id. -/
inductive Seg where
  | lit (s : String)
  | param (nm : String)
deriving DecidableEq

/-- The handlers of the rich server, used as dispatch targets. -/
inductive RouteTag where
  | rootHello
  | listTag
  | statsTag
  | byIdTag
  | createTag
  | updateTag
  | deleteTag
deriving DecidableEq

/-- A registered route: method, path pattern, handler. -/
structure Route where
  method : String
  pattern : List Seg
  tag : RouteTag
deriving DecidableEq

/-- Express path matching for one segment: a literal matches itself, a
parameter matches any segment. -/
def segMatches : Seg → String → Bool
  | .lit s, x => s == x
  | .param _, _ => true

/-- Express path matching: same number of segments, each matching. -/
def pathMatches (pat : List Seg) (path : List String) : Bool :=
  pat.length == path.length
    && (List.zip pat path).all (fun sx => segMatches sx.1 sx.2)

/-- The routes of the rich server in registration order: the stats
route is registered before the parameterized :id route. -/
def richRoutes : List Route :=
  [ { method := "GET", pattern := [], tag := .rootHello },
    { method := "GET", pattern := [.lit "api", .lit "products"], tag := .listTag },
    { method := "GET", pattern := [.lit "api", .lit "products", .lit "stats"], tag := .statsTag },
    { method := "GET", pattern := [.lit "api", .lit "products", .param "id"], tag := .byIdTag },
    { method := "POST", pattern := [.lit "api", .lit "products"], tag := .createTag },
    { method := "PUT", pattern := [.lit "api", .lit "products", .param "id"], tag := .updateTag },
    { method := "DELETE", pattern := [.lit "api", .lit "products", .param "id"], tag := .deleteTag } ]

/-- Express dispatch: the first registered route whose method and
pattern match the request wins. -/
def dispatch (routes : List Route) (method : String) (path : List String) :
    Option RouteTag :=
  (routes.find? (fun r => r.method == method && pathMatches r.pattern path)).map Route.tag

/-- A JSON error body as produced by the different variants: the rich
normalizer emits the structured object, the lean server emits a bare
string under the error key, and the mongoose router and the lean 500
handler emit a bare string under a message key. -/
inductive ErrBody where
  | structured (nm msg : String) (statusCode : Nat) (timestamp path method : String)
  | plainError (msg : String)
  | plainMessage (msg : String)
deriving DecidableEq

/-- Whether an error body has the structured shape
error: (name, message, statusCode, timestamp, path, method). -/
def isStructuredErr : ErrBody → Bool
  | .structured _ _ _ _ _ _ => true
  | _ => false

/-- A failure reaching the rich global error middleware. -/
inductive Err where
  | notFound (msg : String)
  | validation (msg : String)
  | authentication (msg : String)
  | castError (msg : String)
  | syntaxErr (status : Nat) (hasBody : Bool) (msg : String)
  | other (nm msg : String)
deriving DecidableEq

/-- The generic message used for unexpected errors in production. -/
def genericMsg : String := "Something went wrong on our end"

/-- The rich global error middleware: custom error classes keep their
status and message; CastError and body-parse SyntaxError become 400
ValidationError responses; everything else becomes a 500 whose message
is redacted exactly when NODE_ENV is production. -/
def errorHandler (isProd : Bool) (err : Err)
    (ts path method : String) : Nat × ErrBody :=
  match err with
  | .notFound m => (404, .structured "NotFoundError" m 404 ts path method)
  | .validation m => (400, .structured "ValidationError" m 400 ts path method)
  | .authentication m => (401, .structured "AuthenticationError" m 401 ts path method)
  | .castError _ => (400, .structured "ValidationError" "Invalid ID format" 400 ts path method)
  | .syntaxErr status hasBody m =>
    if status == 400 && hasBody then
      (400, .structured "ValidationError" "Invalid JSON format in request body" 400 ts path method)
    else
      (500, .structured "InternalServerError" (if isProd then genericMsg else m) 500 ts path method)
  | .other _ m =>
    (500, .structured "InternalServerError" (if isProd then genericMsg else m) 500 ts path method)

/-- A response body of the lean server GET /api/products/:id route. -/
inductive LeanByIdBody where
  | productBody (p : Product)
  | err (e : ErrBody)
deriving DecidableEq

/-- GET /api/products/:id in the lean server (server.js): 200 with the
record, or 404 with the bare-string error body. -/
def leanGetById (store : List Product) (pathId : String) :
    Nat × LeanByIdBody :=
  match store.find? (fun p => p.id == pathId) with
  | some p => (200, .productBody p)
  | none => (404, .err (.plainError "Product not found"))

/-- Whether a validation verdict is a pass. -/
def validationPasses : Except String Unit → Bool
  | .ok _ => true
  | .error _ => false

/-- Decidable equality of validation verdicts, so that concrete
validator runs can be checked by evaluation. -/
instance : DecidableEq (Except String Unit) := fun a b =>
  match a, b with
  | .ok (), .ok () => isTrue rfl
  | .error x, .error y =>
    if h : x = y then isTrue (by rw [h])
    else isFalse (fun hh => h (by cases hh; rfl))
  | .ok _, .error _ => isFalse (fun h => by cases h)
  | .error _, .ok _ => isFalse (fun h => by cases h)

/-- The documented fallback API key used when no environment key is
configured. -/
def defaultKey : String := "your-secret-api-key"

/-- A fully valid body whose price is exactly 0. -/
def priceZeroBody : Body :=
  { name := .str "Widget", description := .str "A widget",
    price := .num 0, category := .str "gadgets",
    inStock := .boolean true, idField := none }

/-- A valid body except for its negative price. -/
def negPriceBody : Body := { priceZeroBody with price := .num (-5) }

/-- A valid body whose string fields carry leading and trailing
whitespace. -/
def paddedBody : Body :=
  { name := .str "  Widget  ", description := .str " A padded widget ",
    price := .num 5, category := .str " gadgets ",
    inStock := .boolean true, idField := none }

/-- A valid body that also carries an id field different from any path
parameter used with it. -/
def c2Body : Body :=
  { name := .str "Tablet", description := .str "A compact tablet",
    price := .num 300, category := .str "electronics",
    inStock := .boolean true, idField := some (.str "999") }

/-- A valid body used to exercise insertion under a duplicate id. -/
def dupBody : Body :=
  { name := .str "Duplicate", description := .str "Record with a reused id",
    price := .num 7, category := .str "gadgets",
    inStock := .boolean true, idField := none }

/-! ## Auxiliary lemmas -/

/-- Bumping a category key raises exactly the count stored under that
key by one. -/
theorem lookupCount_bumpCount (acc : List (String × Nat)) (c c' : String) :
    lookupCount (bumpCount acc c') c
      = lookupCount acc c + (if c' = c then 1 else 0) := by
  induction acc with
  | nil =>
    by_cases h : c' = c <;> simp [bumpCount, lookupCount, h]
  | cons kv rest ih =>
    obtain ⟨k, v⟩ := kv
    by_cases hk : k = c'
    · subst hk
      by_cases hc2 : k = c <;> simp [bumpCount, lookupCount, hc2]
    · have hcc : ¬ (c' = c) ∨ ¬ (k = c) := by
        by_cases hc2 : k = c
        · exact Or.inl (fun h => hk (hc2.trans h.symm))
        · exact Or.inr hc2
      by_cases hc2 : k = c
      · rcases hcc with hcc | hcc
        · have hcc2 : ¬ (c = c') := fun h => hcc h.symm
          simp [bumpCount, lookupCount, hk, hc2, hcc, hcc2]
        · exact absurd hc2 hcc
      · simp [bumpCount, lookupCount, hk, hc2, ih]

/-- Folding the stats reduce over a list adds, for every category, the
number of records of that category. -/
theorem lookupCount_statsFold (store : List Product)
    (acc : List (String × Nat)) (c : String) :
    lookupCount (store.foldl (fun a p => bumpCount a p.category) acc) c
      = lookupCount acc c + (store.filter (fun p => p.category == c)).length := by
  induction store generalizing acc with
  | nil => simp
  | cons p rest ih =>
    rw [List.foldl_cons, ih, lookupCount_bumpCount, List.filter_cons]
    by_cases h : p.category = c
    · simp only [h, beq_self_eq_true, if_true, ite_true, List.length_cons]
      omega
    · simp [h]

/-! ## Claim theorems -/

/-- C1: in the validateProduct variants, a body with price 0 and all
other fields valid passes validation and the POST creates the product
with status 201; a negative price or a missing name, description,
price or category fails with status 400, and price 0 is never treated
as missing.  The mongoose router variant diverges: its inline check
treats price 0 as a missing field and answers 400 "All fields are
required" without creating anything. -/
theorem C1_price_zero_validation :
    validationPasses (validateProduct priceZeroBody) = true
  ∧ richPost defaultKey (some defaultKey) seedProducts priceZeroBody "new-id"
      = (201, seedProducts ++ [mkRichProduct "new-id" priceZeroBody],
          some (mkRichProduct "new-id" priceZeroBody))
  ∧ validateProduct negPriceBody = .error "price must be a positive number"
  ∧ richPost defaultKey (some defaultKey) seedProducts negPriceBody "new-id"
      = (400, seedProducts, none)
  ∧ richPost defaultKey (some defaultKey) seedProducts
      { priceZeroBody with name := .undef } "new-id" = (400, seedProducts, none)
  ∧ richPost defaultKey (some defaultKey) seedProducts
      { priceZeroBody with description := .undef } "new-id" = (400, seedProducts, none)
  ∧ richPost defaultKey (some defaultKey) seedProducts
      { priceZeroBody with price := .undef } "new-id" = (400, seedProducts, none)
  ∧ richPost defaultKey (some defaultKey) seedProducts
      { priceZeroBody with category := .undef } "new-id" = (400, seedProducts, none)
  ∧ mongooseValidate priceZeroBody = .error "All fields are required"
  ∧ mongoosePost seedProducts priceZeroBody "new-id" = (400, seedProducts, none) := by
  decide

/-- C7: the rich and lean POST/PUT handlers store the trimmed name,
description and category (trimming happens while building the stored
record); the mongoose router POST stores the fields exactly as sent,
untrimmed. -/
theorem C7_trim_on_store :
    richPost defaultKey (some defaultKey) seedProducts paddedBody "X"
      = (201,
          seedProducts
            ++ [{ id := "X", name := "Widget", description := "A padded widget",
                  price := 5, category := "gadgets", inStock := true }],
          some { id := "X", name := "Widget", description := "A padded widget",
                 price := 5, category := "gadgets", inStock := true })
  ∧ richPut defaultKey (some defaultKey) seedProducts "2" paddedBody
      = (200,
          seedProducts.set 1
            { id := "2", name := "Widget", description := "A padded widget",
              price := 5, category := "gadgets", inStock := true },
          some { id := "2", name := "Widget", description := "A padded widget",
                 price := 5, category := "gadgets", inStock := true })
  ∧ mongoosePost seedProducts paddedBody "X"
      = (201,
          seedProducts
            ++ [{ id := "X", name := "  Widget  ", description := " A padded widget ",
                  price := 5, category := " gadgets ", inStock := true }],
          some { id := "X", name := "  Widget  ", description := " A padded widget ",
                 price := 5, category := " gadgets ", inStock := true })
  ∧ "  Widget  " ≠ jsTrim "  Widget  " := by
  decide

/-- C9 counterexample: the POST handler appends even when the supplied
system id already occurs in the store: the request succeeds with 201,
the store changes, and afterwards two records share the id, so no
ConflictError-style failure leaves the store unchanged. -/
theorem C9_counterexample :
    richPost defaultKey (some defaultKey) seedProducts dupBody "1"
      = (201, seedProducts ++ [mkRichProduct "1" dupBody],
          some (mkRichProduct "1" dupBody))
  ∧ (seedProducts.map Product.id).contains "1" = true
  ∧ ((seedProducts ++ [mkRichProduct "1" dupBody]).filter
      (fun p => p.id == "1")).length = 2
  ∧ seedProducts ++ [mkRichProduct "1" dupBody] ≠ seedProducts := by
  decide

/-- C9 amended: insertion performs no duplicate-id check at all; for
every store, valid body and generated id (present in the store or not)
the POST succeeds with 201 and appends the new record. -/
theorem C9_insert_appends_unconditionally (key : String) (hk : key ≠ "")
    (store : List Product) (b : Body) (newId : String)
    (hv : validationPasses (validateProduct b) = true) :
    richPost key (some key) store b newId
      = (201, store ++ [mkRichProduct newId b], some (mkRichProduct newId b)) := by
  have hbeq : (key == "") = false := beq_eq_false_iff_ne.mpr hk
  cases h : validateProduct b with
  | error e => simp [validationPasses, h] at hv
  | ok u => simp [richPost, authenticateApiKey, hbeq, h]

/-- C9 witness: the amended statement applied to the seed store and an
id that is already taken. -/
theorem C9_insert_witness :
    richPost defaultKey (some defaultKey) seedProducts dupBody "1"
      = (201, seedProducts ++ [mkRichProduct "1" dupBody],
          some (mkRichProduct "1" dupBody)) :=
  C9_insert_appends_unconditionally defaultKey (by decide)
    seedProducts dupBody "1" (by decide)

/-- C10: GET on api/products/stats is dispatched to the stats handler,
even though the later-registered :id pattern also matches the path; the
two handlers are distinct and the stats handler always answers 200, so
the path never produces a 404 for the literal id stats. -/
theorem C10_stats_route_priority :
    dispatch richRoutes "GET" ["api", "products", "stats"] = some RouteTag.statsTag
  ∧ pathMatches [Seg.lit "api", Seg.lit "products", Seg.param "id"]
      ["api", "products", "stats"] = true
  ∧ RouteTag.statsTag ≠ RouteTag.byIdTag
  ∧ ∀ store : List Product, (richStats store).1 = 200 := by
  exact ⟨by decide, by decide, by decide, fun store => rfl⟩

/-- C2: when the path id is present in the store, PUT overwrites that
slot with a record whose id is the path parameter, the returned record
carries the path id, and the response is entirely independent of any id
field supplied in the request body. -/
theorem C2_put_preserves_path_id (key : String) (hk : key ≠ "")
    (store : List Product) (pathId : String) (b : Body) (i : Nat)
    (hv : validationPasses (validateProduct b) = true)
    (hfind : store.findIdx? (fun p => p.id == pathId) = some i) :
    richPut key (some key) store pathId b
      = (200, store.set i (mkRichProduct pathId b), some (mkRichProduct pathId b))
  ∧ (mkRichProduct pathId b).id = pathId
  ∧ ∀ x : Option JsVal,
      richPut key (some key) store pathId { b with idField := x }
        = richPut key (some key) store pathId b := by
  have hbeq : (key == "") = false := beq_eq_false_iff_ne.mpr hk
  refine ⟨?_, rfl, fun x => rfl⟩
  cases h : validateProduct b with
  | error e => simp [validationPasses, h] at hv
  | ok u => simp [richPut, authenticateApiKey, hbeq, h, hfind]

/-- C2 witness: replacing seed product 2 with a body that smuggles in
the id 999 still yields a record whose id is 2. -/
theorem C2_put_witness :
    richPut defaultKey (some defaultKey) seedProducts "2" c2Body
      = (200, seedProducts.set 1 (mkRichProduct "2" c2Body),
          some (mkRichProduct "2" c2Body))
  ∧ (mkRichProduct "2" c2Body).id = "2" := by
  have h := C2_put_preserves_path_id defaultKey (by decide) seedProducts "2"
    c2Body 1 (by decide) (by decide)
  exact ⟨h.1, h.2.1⟩

/-- C3: the list endpoint returns the envelope whose total is the count
of the filtered list (before slicing) and whose data is the filtered
list sliced from (page-1)*limit with length at most limit, in original
relative order; on the seed data with limit 2, page 1 gives 2 records
with total 3 and page 2 gives the remaining 1. -/
theorem C3_list_envelope :
    (∀ (store : List Product) (qp : ListQuery),
      (listProducts store qp).total
          = (applyQFilter (applyCategoryFilter store qp.category) qp.q).length
      ∧ (listProducts store qp).data
          = ((applyQFilter (applyCategoryFilter store qp.category) qp.q).drop
                (((listProducts store qp).page - 1) * (listProducts store qp).limit).toNat).take
              (listProducts store qp).limit.toNat
      ∧ List.Sublist (listProducts store qp).data
          (applyQFilter (applyCategoryFilter store qp.category) qp.q)
      ∧ (listProducts store qp).data.length ≤ (listProducts store qp).limit.toNat)
  ∧ listProducts seedProducts ⟨none, none, some "1", some "2"⟩
      = ⟨1, 2, 3, [laptopP, smartphoneP]⟩
  ∧ listProducts seedProducts ⟨none, none, some "2", some "2"⟩
      = ⟨2, 2, 3, [coffeeMakerP]⟩ := by
  refine ⟨fun store qp => ⟨rfl, rfl, ?_, ?_⟩, by decide, by decide⟩
  · exact (List.take_sublist _ _).trans (List.drop_sublist _ _)
  · exact List.length_take_le _ _

/-- C4: the effective page is parsed with default 1 and floor 1 (non
numeric input also becomes 1) and the effective limit with default 10,
floor 1 and ceiling 100, so the envelope always has page at least 1 and
limit between 1 and 100. -/
theorem C4_pagination_params :
    (∀ s : Option String,
      1 ≤ parsePage s ∧ 1 ≤ parseLimit s ∧ parseLimit s ≤ 100)
  ∧ parsePage none = 1
  ∧ parseLimit none = 10
  ∧ (∀ s : String, jsParseInt s = none →
      parsePage (some s) = 1 ∧ parseLimit (some s) = 10)
  ∧ (∀ (store : List Product) (qp : ListQuery),
      1 ≤ (listProducts store qp).page
      ∧ 1 ≤ (listProducts store qp).limit
      ∧ (listProducts store qp).limit ≤ 100) := by
  have hbounds : ∀ s : Option String,
      1 ≤ parsePage s ∧ 1 ≤ parseLimit s ∧ parseLimit s ≤ 100 := by
    intro s
    exact ⟨le_max_right _ _, le_min (le_max_right _ _) (by norm_num),
      min_le_right _ _⟩
  refine ⟨hbounds, by decide, by decide, ?_, fun store qp =>
    ⟨(hbounds qp.page).1, (hbounds qp.limit).2.1, (hbounds qp.limit).2.2⟩⟩
  intro s h
  constructor
  · simp only [parsePage, Option.getD_some, h, jsOrDefault]; decide
  · simp only [parseLimit, Option.getD_some, h, jsOrDefault]; decide

/-- C4 witness: bounds and defaults evaluated at concrete parameter
strings, with the non-numeric case discharged for the input abc. -/
theorem C4_params_witness :
    jsParseInt "abc" = none
  ∧ parsePage (some "abc") = 1
  ∧ parseLimit (some "abc") = 10
  ∧ 1 ≤ parsePage (some "0")
  ∧ 1 ≤ parseLimit (some "-7")
  ∧ parseLimit (some "250") ≤ 100 := by
  have h := C4_pagination_params
  have himp := h.2.2.2.1 "abc" (by decide)
  exact ⟨by decide, himp.1, himp.2, (h.1 (some "0")).1,
    (h.1 (some "-7")).2.1, (h.1 (some "250")).2.2⟩

/-- C5: with both parameters given, a record survives the list
filtering exactly when its category equals the category parameter case
insensitively (full equality, not substring) and its name contains the
q parameter as a case-insensitive substring, and the search filter runs
on the output of the category filter. -/
theorem C5_category_then_search (store : List Product) (c q : String)
    (hc : c ≠ "") (hq : q ≠ "") :
    (∀ p : Product,
      p ∈ applyQFilter (applyCategoryFilter store (some c)) (some q)
        ↔ p ∈ store ∧ jsLower p.category = jsLower c
            ∧ jsIncludes (jsLower p.name) (jsLower q) = true)
  ∧ applyQFilter (applyCategoryFilter store (some c)) (some q)
      = (applyCategoryFilter store (some c)).filter
          (fun p => jsIncludes (jsLower p.name) (jsLower q)) := by
  have hc2 : strParamTruthy (some c) = true := by simp [strParamTruthy, hc]
  have hq2 : strParamTruthy (some q) = true := by simp [strParamTruthy, hq]
  constructor
  · intro p
    simp [applyQFilter, applyCategoryFilter, hc2, hq2, Option.getD_some,
      List.mem_filter, and_assoc, beq_iff_eq]
    tauto
  · simp [applyQFilter, hq2]

/-- C5 witness: the Laptop seed record survives filtering by the
category Electronics (case-insensitive exact match) and the search
string LAP (case-insensitive substring of its name). -/
theorem C5_filters_witness :
    laptopP ∈ applyQFilter (applyCategoryFilter seedProducts (some "Electronics"))
      (some "LAP") :=
  ((C5_category_then_search seedProducts "Electronics" "LAP"
      (by decide) (by decide)).1 laptopP).mpr ⟨by decide, by decide, by decide⟩

/-- C6: the stats endpoint computes the unfiltered record count, the
count of records with inStock true, and per-category counts over the
full store; on the seed data it yields total 3, inStock 2, and counts
electronics 2, kitchen 1. -/
theorem C6_stats :
    (∀ store : List Product,
      (statsOf store).total = store.length
      ∧ (statsOf store).inStock = (store.filter (fun p => p.inStock)).length
      ∧ ∀ c : String, lookupCount (statsOf store).byCategory c
          = (store.filter (fun p => p.category == c)).length)
  ∧ statsOf seedProducts
      = { total := 3, inStock := 2,
          byCategory := [("electronics", 2), ("kitchen", 1)] } := by
  refine ⟨fun store => ⟨rfl, rfl, fun c => ?_⟩, by decide⟩
  have h := lookupCount_statsFold store [] c
  simpa [statsOf, lookupCount] using h

/-- C8 counterexample: the lean server answers a missing id with a 404
whose body is a bare string under the error key, not the structured
error object, so not every failure response has the claimed shape. -/
theorem C8_counterexample :
    leanGetById seedProducts "999"
      = (404, LeanByIdBody.err (ErrBody.plainError "Product not found"))
  ∧ isStructuredErr (ErrBody.plainError "Product not found") = false := by
  decide

/-- C8 amended: every failure routed through the rich global error
middleware gets the structured body with name, message, statusCode,
timestamp, path and method, with statuses 404, 400, 401, 400 for
NotFoundError, ValidationError, AuthenticationError and malformed JSON
bodies and 500 otherwise, and the unexpected 500 message is the generic
string exactly in a production configuration. -/
theorem C8_error_normalizer_structured :
    (∀ (isProd : Bool) (err : Err) (ts p m : String),
      isStructuredErr (errorHandler isProd err ts p m).2 = true)
  ∧ (∀ (isProd : Bool) (msg ts p m : String),
      errorHandler isProd (.notFound msg) ts p m
        = (404, .structured "NotFoundError" msg 404 ts p m))
  ∧ (∀ (isProd : Bool) (msg ts p m : String),
      errorHandler isProd (.validation msg) ts p m
        = (400, .structured "ValidationError" msg 400 ts p m))
  ∧ (∀ (isProd : Bool) (msg ts p m : String),
      errorHandler isProd (.authentication msg) ts p m
        = (401, .structured "AuthenticationError" msg 401 ts p m))
  ∧ (∀ (isProd : Bool) (msg ts p m : String),
      errorHandler isProd (.syntaxErr 400 true msg) ts p m
        = (400, .structured "ValidationError"
            "Invalid JSON format in request body" 400 ts p m))
  ∧ (∀ (nm msg ts p m : String),
      errorHandler true (.other nm msg) ts p m
        = (500, .structured "InternalServerError" genericMsg 500 ts p m))
  ∧ (∀ (nm msg ts p m : String),
      errorHandler false (.other nm msg) ts p m
        = (500, .structured "InternalServerError" msg 500 ts p m)) := by
  refine ⟨?_, fun _ _ _ _ _ => rfl, fun _ _ _ _ _ => rfl, fun _ _ _ _ _ => rfl,
    fun _ _ _ _ _ => rfl, fun _ _ _ _ _ => rfl, fun _ _ _ _ _ => rfl⟩
  intro isProd err ts p m
  cases err
  case syntaxErr s hb msg => dsimp only [errorHandler]; split <;> rfl
  all_goals rfl

end ProductsApi
